import Mathlib

/-!
Verification development for the MacDonalds multi-agent scheduling repository.

The repository ships two source files: `agents/explainer.py` (the
`OpenRouterClient` / `ExplainerAgent` pair) and `streamlit_app.py` (the
dashboard).  Those are embedded below directly from their source.  The data
model (`models/schedule.py`, `models/constraints.py`, `models/employee.py`,
`models/store.py`) and the core agents (`ComplianceValidator`,
`ConflictResolver`, `CoordinatorAgent`) are referenced by the shipped code but
their files are absent; where a property depends on them they are modelled from
the specification, and each such definition says so in its doc comment.

Machine reals (Python `float`) are modelled as `ℚ`; dates as day indices
(`Nat`); Python dictionaries as association lists.
-/

/-! ## Data model (modelled from the spec, the `models/` package is absent) -/

/-- Modelled from the spec: `models/shift.py` is absent.  "Shift: a start/end
time pair with a derived duration in hours and a short code identifying its
daypart."  Times are hours-of-day as rationals; `hours` is the derived
duration used by the explainer (`a.shift.hours`). -/
structure Shift where
  code : String
  start_time : ℚ
  end_time : ℚ
  hours : ℚ
deriving Repr, DecidableEq

/-- Modelled from the spec: `models/schedule.py` is absent.  "Assignment:
(employee, date, shift, station) tuple — the atomic unit of the roster."
Dates are day indices, stations are their names. -/
structure Assignment where
  employee_id : Nat
  day : Nat
  shift : Shift
  station : String
deriving Repr, DecidableEq

/-- Modelled from the spec: `models/schedule.py` is absent.  "Schedule: the
ordered, queryable collection of Assignments over the requested date range." -/
structure Schedule where
  assignments : List Assignment
  start_day : Nat
  end_day : Nat
deriving Repr, DecidableEq

/-- Modelled from the spec: lookup "by employee" supported by `Schedule`. -/
def Schedule.get_assignments_by_employee (s : Schedule) (eid : Nat) : List Assignment :=
  s.assignments.filter (fun a => a.employee_id == eid)

/-- Modelled from the spec: lookup "by date" supported by `Schedule`. -/
def Schedule.get_assignments_by_date (s : Schedule) (d : Nat) : List Assignment :=
  s.assignments.filter (fun a => a.day == d)

/-- Modelled from the spec: lookup "by station" supported by `Schedule`. -/
def Schedule.get_assignments_by_station (s : Schedule) (st : String) : List Assignment :=
  s.assignments.filter (fun a => a.station == st)

/-- Modelled from the spec: the dates of the requested range, used by the
explainer's coverage analysis (`schedule.get_dates_in_range()`). -/
def Schedule.get_dates_in_range (s : Schedule) : List Nat :=
  (List.range (s.end_day + 1 - s.start_day)).map (fun i => s.start_day + i)

/-- Modelled from the spec: `Schedule` "computes aggregate summaries (total
assignments, unique employees, total hours, date span)"; the explainer reads
the fields `date_range`, `total_assignments`, `unique_employees`,
`total_hours` and `days` of `schedule.summary()`. -/
structure SummaryData where
  date_range : String
  total_assignments : Nat
  unique_employees : Nat
  total_hours : ℚ
  days : Nat
deriving Repr, DecidableEq

/-- Modelled from the spec: the `Schedule.summary()` aggregate. -/
def Schedule.summary (s : Schedule) : SummaryData :=
  { date_range := toString s.start_day ++ " to " ++ toString s.end_day
    total_assignments := s.assignments.length
    unique_employees := ((s.assignments.map (fun a => a.employee_id)).eraseDups).length
    total_hours := (s.assignments.map (fun a => a.shift.hours)).sum
    days := s.end_day + 1 - s.start_day }

/-- Modelled from the spec: `models/employee.py` is absent.  "Employee:
identity, name, employment type (one of full-time, part-time, casual,
manager), set of qualified stations, weekly-hours target range (min,max)." -/
inductive EmployeeType where
  | full_time
  | part_time
  | casual
  | manager
deriving Repr, DecidableEq

/-- Modelled from the spec: the printable value of an employment type, as the
explainer reads `employee.employee_type.value`. -/
def EmployeeType.value : EmployeeType → String
  | .full_time => "Full-Time"
  | .part_time => "Part-Time"
  | .casual => "Casual"
  | .manager => "Manager"

/-- Modelled from the spec: the `Employee` record.  `weekly_hours_target` is
the (min, max) pair the explainer reads as `weekly_hours_target[0]` and
`weekly_hours_target[1]`. -/
structure Employee where
  id : Nat
  name : String
  employee_type : EmployeeType
  stations : List String
  weekly_hours_target : ℚ × ℚ
deriving Repr, DecidableEq

/-- Modelled from the spec: `models/store.py` is absent.  "Store: name, store
type, operating hours, active stations, demand modifiers." -/
structure Store where
  name : String
  store_type : String
  active_stations : List String
deriving Repr, DecidableEq

/-- Modelled from the spec: the active-station accessor the explainer calls as
`store.get_active_stations()`. -/
def Store.get_active_stations (st : Store) : List String :=
  st.active_stations

/-- Modelled from the spec: `models/constraints.py` is absent.  "Violation /
Warning: shared shape — description, severity (0–10), list of candidate
remediation suggestions." -/
structure Violation where
  description : String
  severity : Nat
  suggestions : List String
deriving Repr, DecidableEq

/-- Modelled from the spec: "ApprovalRequest: constraint type, affected date,
description, structured details including an escalation reason."  The
`details` dictionary is an association list; the explainer reads
`approval.constraint_type.value`, `approval.affected_date`,
`approval.description` and `approval.details.get("escalation_reason", ...)`. -/
structure ApprovalRequest where
  constraint_type : String
  affected_date : Option Nat
  description : String
  details : List (String × String)
deriving Repr, DecidableEq

/-- Modelled from the spec: "ComplianceResult: violations, warnings,
pending_approvals, a 0–100 score, and an `is_compliant` flag equivalent to
'violations is empty'."  The flag is the derived predicate
`ComplianceResult.is_compliant` below, exactly the spec's equivalence. -/
structure ComplianceResult where
  violations : List Violation
  warnings : List Violation
  pending_approvals : List ApprovalRequest
  score : ℚ
deriving Repr, DecidableEq

/-- Modelled from the spec: the `is_compliant` flag, "true iff the violation
list is empty, independent of warnings or fairness." -/
def ComplianceResult.is_compliant (cr : ComplianceResult) : Bool :=
  cr.violations.isEmpty

/-! ## Dashboard embeddings (`streamlit_app.py`) -/

/-- From `streamlit_app.py` lines 873–879: the literal `compliance_checks`
list of `(check_name, passed, description)` tuples rendered by the
"Compliance Verification" panel.  Every `passed` flag is the literal `True`. -/
def compliance_checks : List (String × Bool × String) :=
  [ ("Australian Fair Work Act", true, "All shifts comply with legal requirements"),
    ("10-Hour Rest Periods", true, "Minimum rest between shifts enforced"),
    ("Maximum Hours Limits", true, "Full-time ≤38h, Part-time ≤32h, Casual ≤24h"),
    ("Skill Matching", true, "Employees assigned to trained stations only"),
    ("Minimum Staffing", true, "All stations have required coverage") ]

/-- From `streamlit_app.py` lines 881–892: the rendering loop of the panel.
`icon = "✅" if passed else "⚠️"`, `bg_class = "" if passed else "warning"`.
The loop iterates over the constant `compliance_checks`; the compliance result
(here represented by its violation count, the datum the claim is about) is in
scope but never consulted. -/
def compliance_panel (violation_count : Nat) : List (String × String × String) :=
  compliance_checks.map (fun c =>
    let icon := if c.2.1 then "✅" else "⚠️"
    let bg_class := if c.2.1 then "" else "warning"
    (icon, bg_class, c.1))

/-- From `streamlit_app.py` lines 925–926: `_count_issues(keyword)` counts the
warning-detail entries whose lowercased text contains the keyword.  Substring
containment on the character lists. -/
def count_issues (keyword : String) (warnings_list : List String) : Nat :=
  (warnings_list.filter (fun w => decide (keyword.toList <:+: w.toLower.toList))).length

/-- From `streamlit_app.py` lines 933–938: `total_days = 14`; `_coverage`
returns `100.0` when `warnings_list` is falsy (empty) and otherwise
`max(0, (total_days - issues) / total_days * 100)`.  The closure captures
`warnings_list`; here it is an explicit argument. -/
def coverage (warnings_list : List String) (issues : Nat) : ℚ :=
  if warnings_list.isEmpty then 100
  else max 0 ((14 - (issues : ℚ)) / 14 * 100)

/-! ## Claim C3 -/

/-- C3: for every `ComplianceResult` the `is_compliant` flag is true iff the
violations list is empty — the warnings, pending approvals and score fields
are universally quantified, so the equivalence is independent of them. -/
theorem C3_is_compliant_iff_no_violations (cr : ComplianceResult) :
    cr.is_compliant = true ↔ cr.violations = [] := by
  simp [ComplianceResult.is_compliant, List.isEmpty_iff]

/-! ## Claim C9 -/

/-- C9: the dashboard's "Compliance Verification" panel renders all five
compliance checks as passed: the `passed` flag of each entry of
`compliance_checks` is the constant `true`, there are exactly five checks, and
the rendered panel is the same list of `("✅", "", name)` rows for every
violation count, i.e. the output is independent of the compliance result. -/
theorem C9_compliance_panel_constant :
    compliance_checks.length = 5 ∧
    compliance_checks.all (fun c => c.2.1) = true ∧
    (∀ v₁ v₂ : Nat, compliance_panel v₁ = compliance_panel v₂) ∧
    (∀ v : Nat, compliance_panel v =
      [ ("✅", "", "Australian Fair Work Act"),
        ("✅", "", "10-Hour Rest Periods"),
        ("✅", "", "Maximum Hours Limits"),
        ("✅", "", "Skill Matching"),
        ("✅", "", "Minimum Staffing") ]) := by
  refine ⟨rfl, rfl, fun v₁ v₂ => rfl, fun v => rfl⟩

/-! ## Claim C10 -/

/-- C10: the daypart coverage function returns exactly `100` when the
warning-details list is empty, otherwise `max 0 ((14 - issues) / 14 * 100)`
with the day count hard-coded to `14` (no date argument exists), and its
result always lies in `[0, 100]` because the issue count is a natural
number. -/
theorem C10_coverage_formula_and_bounds (issues : Nat) (w : String) (ws : List String) :
    coverage [] issues = 100 ∧
    coverage (w :: ws) issues = max 0 ((14 - (issues : ℚ)) / 14 * 100) ∧
    (∀ l : List String, 0 ≤ coverage l issues ∧ coverage l issues ≤ 100) := by
  refine ⟨rfl, rfl, fun l => ?_⟩
  unfold coverage
  by_cases hl : l.isEmpty
  · simp [hl]
  · simp only [hl, if_false]
    constructor
    · exact le_max_left 0 _
    · have hi : (0 : ℚ) ≤ (issues : ℚ) := Nat.cast_nonneg issues
      have h14 : (0 : ℚ) < 14 := by norm_num
      have : (14 - (issues : ℚ)) / 14 * 100 ≤ 100 := by
        rw [div_mul_eq_mul_div, div_le_iff₀ h14]
        nlinarith
      exact max_le (by norm_num) this

/-! ## Fairness: the Gini coefficient (modelled from the spec, the
`ComplianceValidator` is absent) -/

/-- The hours an employee is scheduled for: the explainer computes it as
`sum(a.shift.hours for a in schedule.get_assignments_by_employee(id))`
(`agents/explainer.py` lines 347–348 and 406–407). -/
def scheduled_hours (s : Schedule) (eid : Nat) : ℚ :=
  ((s.get_assignments_by_employee eid).map (fun a => a.shift.hours)).sum

/-- Sum over all ordered pairs of the absolute hour differences, the numerator
of the mean-absolute-difference Gini coefficient. -/
def pairwise_abs_sum (l : List ℚ) : ℚ :=
  (l.map (fun x => (l.map (fun y => |x - y|)).sum)).sum

/-- Modelled from the spec: the `ComplianceValidator` (absent from the
sources) computes "the Gini coefficient of the per-employee total-hours
distribution"; this is the standard mean-absolute-difference form
`Σᵢⱼ |xᵢ - xⱼ| / (2 n Σᵢ xᵢ)`. -/
def gini (l : List ℚ) : ℚ :=
  pairwise_abs_sum l / (2 * l.length * l.sum)

/-- Modelled from the spec: the per-employee total-hours distribution the
validator feeds to the Gini computation. -/
def employee_hours_list (s : Schedule) (eids : List Nat) : List ℚ :=
  eids.map (fun e => scheduled_hours s e)

/-- Modelled from the spec: the `fairness.gini_coefficient` value reported in
the `ComplianceResult` and displayed by the dashboard
(`streamlit_app.py` lines 982–992). -/
def fairness_gini (s : Schedule) (eids : List Nat) : ℚ :=
  gini (employee_hours_list s eids)

lemma sum_abs_map_nonneg (l : List ℚ) (x : ℚ) :
    0 ≤ (l.map (fun y => |x - y|)).sum := by
  apply List.sum_nonneg
  intro z hz
  rcases List.mem_map.1 hz with ⟨y, _, rfl⟩
  exact abs_nonneg _

lemma pairwise_abs_sum_nonneg (l : List ℚ) : 0 ≤ pairwise_abs_sum l := by
  apply List.sum_nonneg
  intro z hz
  rcases List.mem_map.1 hz with ⟨x, _, rfl⟩
  exact sum_abs_map_nonneg l x

lemma sum_map_add_const (l : List ℚ) (x : ℚ) :
    (l.map (fun y => x + y)).sum = l.length * x + l.sum := by
  induction l with
  | nil => simp
  | cons a t ih => simp [ih]; ring

lemma sum_map_linear (l : List ℚ) (c s : ℚ) :
    (l.map (fun x => c * x + s)).sum = c * l.sum + l.length * s := by
  induction l with
  | nil => simp
  | cons a t ih => simp [ih]; ring

lemma pairwise_abs_sum_le (l : List ℚ) (h : ∀ x ∈ l, 0 ≤ x) :
    pairwise_abs_sum l ≤ 2 * l.length * l.sum := by
  have step : ∀ x ∈ l, (l.map (fun y => |x - y|)).sum ≤ l.length * x + l.sum := by
    intro x hx
    have hmono : (l.map (fun y => |x - y|)).sum ≤ (l.map (fun y => x + y)).sum := by
      apply List.sum_le_sum
      intro y hy
      have hx' := h x hx
      have hy' := h y hy
      rw [abs_sub_le_iff]
      constructor <;> linarith
    calc (l.map (fun y => |x - y|)).sum ≤ (l.map (fun y => x + y)).sum := hmono
      _ = l.length * x + l.sum := sum_map_add_const l x
  have houter : pairwise_abs_sum l ≤ (l.map (fun x => (l.length : ℚ) * x + l.sum)).sum := by
    unfold pairwise_abs_sum
    exact List.sum_le_sum step
  have hlin := sum_map_linear l (l.length : ℚ) l.sum
  calc pairwise_abs_sum l ≤ (l.map (fun x => (l.length : ℚ) * x + l.sum)).sum := houter
    _ = (l.length : ℚ) * l.sum + l.length * l.sum := hlin
    _ = 2 * l.length * l.sum := by ring

lemma pairwise_abs_sum_eq_zero_iff (l : List ℚ) :
    pairwise_abs_sum l = 0 ↔ ∀ x ∈ l, ∀ y ∈ l, x = y := by
  constructor
  · intro h0 x hx y hy
    have hinner : (l.map (fun y => |x - y|)).sum = 0 := by
      have := List.all_zero_of_le_zero_le_of_sum_eq_zero
        (l := l.map (fun x => (l.map (fun y => |x - y|)).sum))
        (fun z hz => by
          rcases List.mem_map.1 hz with ⟨a, _, rfl⟩
          exact sum_abs_map_nonneg l a)
        h0
        (List.mem_map.2 ⟨x, hx, rfl⟩)
      exact this
    have habs : |x - y| = 0 := by
      have := List.all_zero_of_le_zero_le_of_sum_eq_zero
        (l := l.map (fun y => |x - y|))
        (fun z hz => by
          rcases List.mem_map.1 hz with ⟨a, _, rfl⟩
          exact abs_nonneg _)
        hinner
        (List.mem_map.2 ⟨y, hy, rfl⟩)
      exact this
    exact sub_eq_zero.1 (abs_eq_zero.1 habs)
  · intro hall
    unfold pairwise_abs_sum
    apply List.sum_eq_zero
    intro z hz
    rcases List.mem_map.1 hz with ⟨x, hx, rfl⟩
    apply List.sum_eq_zero
    intro z' hz'
    rcases List.mem_map.1 hz' with ⟨y, hy, rfl⟩
    rw [hall x hx y hy]
    simp

lemma gini_nonneg (l : List ℚ) (h : ∀ x ∈ l, 0 ≤ x) : 0 ≤ gini l := by
  unfold gini
  apply div_nonneg (pairwise_abs_sum_nonneg l)
  have hs : 0 ≤ l.sum := List.sum_nonneg h
  positivity

lemma gini_le_one (l : List ℚ) (h : ∀ x ∈ l, 0 ≤ x) : gini l ≤ 1 := by
  unfold gini
  rcases eq_or_lt_of_le (show (0 : ℚ) ≤ 2 * l.length * l.sum by
      have hs : 0 ≤ l.sum := List.sum_nonneg h
      positivity) with hd | hd
  · rw [← hd, div_zero]
    norm_num
  · rw [div_le_one hd]
    exact pairwise_abs_sum_le l h

lemma gini_eq_zero_iff (l : List ℚ) (h : ∀ x ∈ l, 0 ≤ x) :
    gini l = 0 ↔ ∀ x ∈ l, ∀ y ∈ l, x = y := by
  constructor
  · intro h0
    unfold gini at h0
    rcases div_eq_zero_iff.1 h0 with hnum | hden
    · exact (pairwise_abs_sum_eq_zero_iff l).1 hnum
    · have : (l.length : ℚ) = 0 ∨ l.sum = 0 := by
        rcases mul_eq_zero.1 hden with h2l | hs
        · rcases mul_eq_zero.1 h2l with h2 | hl
          · norm_num at h2
          · exact Or.inl hl
        · exact Or.inr hs
      rcases this with hl | hs
      · have : l = [] := List.length_eq_zero.1 (by exact_mod_cast hl)
        subst this
        intro x hx
        simp at hx
      · intro x hx y hy
        have hx0 := List.all_zero_of_le_zero_le_of_sum_eq_zero h hs hx
        have hy0 := List.all_zero_of_le_zero_le_of_sum_eq_zero h hs hy
        rw [hx0, hy0]
  · intro hall
    unfold gini
    rw [(pairwise_abs_sum_eq_zero_iff l).2 hall, zero_div]

/-! ## Claim C7 -/

/-- C7: the Gini coefficient reported as the compliance result's fairness
value lies in `[0, 1]`, and equals `0` iff all scheduled employees have
identical total scheduled hours.  The hypothesis is that every assignment's
shift has a non-negative duration (true of any real shift). -/
theorem C7_gini_bounds_and_zero_iff (s : Schedule) (eids : List Nat)
    (hpos : ∀ a ∈ s.assignments, 0 ≤ a.shift.hours) :
    0 ≤ fairness_gini s eids ∧ fairness_gini s eids ≤ 1 ∧
    (fairness_gini s eids = 0 ↔
      ∀ e₁ ∈ eids, ∀ e₂ ∈ eids, scheduled_hours s e₁ = scheduled_hours s e₂) := by
  have hnn : ∀ x ∈ employee_hours_list s eids, 0 ≤ x := by
    intro x hx
    rcases List.mem_map.1 hx with ⟨e, _, rfl⟩
    apply List.sum_nonneg
    intro z hz
    rcases List.mem_map.1 hz with ⟨a, ha, rfl⟩
    exact hpos a (List.mem_of_mem_filter ha)
  refine ⟨gini_nonneg _ hnn, gini_le_one _ hnn, ?_⟩
  rw [show fairness_gini s eids = gini (employee_hours_list s eids) from rfl]
  rw [gini_eq_zero_iff _ hnn]
  constructor
  · intro hall e₁ h₁ e₂ h₂
    exact hall _ (List.mem_map.2 ⟨e₁, h₁, rfl⟩) _ (List.mem_map.2 ⟨e₂, h₂, rfl⟩)
  · intro hall x hx y hy
    rcases List.mem_map.1 hx with ⟨e₁, h₁, rfl⟩
    rcases List.mem_map.1 hy with ⟨e₂, h₂, rfl⟩
    exact hall e₁ h₁ e₂ h₂

/-- A concrete two-assignment schedule used by the C7 witness. -/
def giniWitnessSchedule : Schedule :=
  ⟨[⟨1, 0, ⟨"1F", 0, 9, 9⟩, "grill"⟩, ⟨2, 0, ⟨"2F", 14, 23, 9⟩, "counter"⟩], 0, 1⟩

/-- Witness for C7 at a concrete schedule: two employees, one assignment each
with equal hours, so the Gini value is `0` and both bounds hold. -/
theorem C7_gini_bounds_and_zero_iff_witness :
    (∀ a ∈ giniWitnessSchedule.assignments, 0 ≤ a.shift.hours) ∧
    (0 ≤ fairness_gini giniWitnessSchedule [1, 2] ∧
     fairness_gini giniWitnessSchedule [1, 2] ≤ 1 ∧
     (fairness_gini giniWitnessSchedule [1, 2] = 0 ↔
       ∀ e₁ ∈ [1, 2], ∀ e₂ ∈ [1, 2],
         scheduled_hours giniWitnessSchedule e₁ = scheduled_hours giniWitnessSchedule e₂)) :=
  ⟨by decide, C7_gini_bounds_and_zero_iff giniWitnessSchedule [1, 2] (by decide)⟩

/-! ## ConflictResolver and Coordinator loop (modelled from the spec, both
agents are absent from the sources) -/

/-- Modelled from the spec: the `ConflictResolver`'s acceptance rule for a
single remediation mutation — "After every mutation, re-run
ComplianceValidator; if the mutation did not strictly improve the score, roll
it back (never accept a regression)."  `score` is the composition of the
validator with the score field of its result. -/
def attempt_mutation (score : Schedule → ℚ) (m : Schedule → Schedule) (s : Schedule) : Schedule :=
  let s' := m s
  if score s < score s' then s' else s

/-- Modelled from the spec: one full violation/warning sweep of the
`ConflictResolver`, attempting each candidate mutation in order under the
accept-or-rollback rule. -/
def resolver_sweep (score : Schedule → ℚ) (ms : List (Schedule → Schedule)) (s : Schedule) :
    Schedule :=
  ms.foldl (fun cur m => attempt_mutation score m cur) s

/-! ## Claim C4 -/

/-- C4: across accepted mutations the validator score is monotonically
non-decreasing — a single attempted mutation never lowers the score (it is
rolled back unless it strictly improves it), and hence a whole sweep of
attempted mutations never lowers it.  This holds for every score function,
every candidate mutation list and every starting schedule. -/
theorem C4_resolver_score_monotone (score : Schedule → ℚ) (s : Schedule)
    (m : Schedule → Schedule) (ms : List (Schedule → Schedule)) :
    score s ≤ score (attempt_mutation score m s) ∧
    score s ≤ score (resolver_sweep score ms s) := by
  have hstep : ∀ (m' : Schedule → Schedule) (t : Schedule),
      score t ≤ score (attempt_mutation score m' t) := by
    intro m' t
    unfold attempt_mutation
    by_cases hlt : score t < score (m' t)
    · simp only [hlt, if_true]
      exact le_of_lt hlt
    · simp only [hlt, if_false]
      exact le_refl _
  refine ⟨hstep m s, ?_⟩
  induction ms generalizing s with
  | nil => exact le_refl _
  | cons m' tl ih =>
    calc score s ≤ score (attempt_mutation score m' s) := hstep m' s
      _ ≤ score (resolver_sweep score tl (attempt_mutation score m' s)) := ih _
      _ = score (resolver_sweep score (m' :: tl) s) := rfl

/-- Modelled from the spec: the phases of the Coordinator state machine,
"Init → Forecasting → Matching → Validating → Resolving ⇄ Validating →
Finalized" with the degraded terminal state for unrecoverable failures. -/
inductive CoordinatorPhase where
  | init
  | forecasting
  | matching
  | validating
  | resolving
  | finalized
  | degraded
deriving Repr, DecidableEq

/-- Modelled from the spec: the Coordinator's `Resolving ⇄ Validating` loop.
Fuel is the remaining iteration budget; each cycle validates, exits when
`is_compliant` holds, runs one resolver sweep, and exits when the sweep made
no further improvement.  Returns the final schedule and the number of cycles
executed.  The definition is structurally recursive on the budget, so every
run terminates. -/
def resolve_validate_loop (validate : Schedule → ComplianceResult)
    (sweep : Schedule → Schedule) : Nat → Schedule → Schedule × Nat
  | 0, s => (s, 0)
  | n + 1, s =>
    if (validate s).is_compliant then (s, 0)
    else
      let s' := sweep s
      if (validate s').score ≤ (validate s).score then (s', 1)
      else
        let r := resolve_validate_loop validate sweep n s'
        (r.1, r.2 + 1)

/-- Modelled from the spec: a Coordinator run enters the loop with the
`max_iterations` budget and then transitions to the `Finalized` state. -/
def coordinator_run (validate : Schedule → ComplianceResult) (sweep : Schedule → Schedule)
    (max_iterations : Nat) (s : Schedule) : Schedule × Nat × CoordinatorPhase :=
  let r := resolve_validate_loop validate sweep max_iterations s
  (r.1, r.2, CoordinatorPhase.finalized)

lemma resolve_validate_loop_cycle_bound (validate : Schedule → ComplianceResult)
    (sweep : Schedule → Schedule) (n : Nat) (s : Schedule) :
    (resolve_validate_loop validate sweep n s).2 ≤ n := by
  induction n generalizing s with
  | zero => simp [resolve_validate_loop]
  | succ k ih =>
    simp only [resolve_validate_loop]
    by_cases hc : (validate s).is_compliant
    · simp [hc]
    · simp only [hc, if_false]
      by_cases himp : (validate (sweep s)).score ≤ (validate s).score
      · simp [himp]
      · simp only [himp, if_false]
        exact Nat.succ_le_succ (ih (sweep s))

/-! ## Claim C5 -/

/-- C5: the Coordinator's `Resolving ⇄ Validating` loop runs at most
`max_iterations` cycles, the run always ends in the `Finalized` phase (the
loop is total — structural recursion on the budget — so a run always
terminates), and it exits immediately when validation already reports
`is_compliant` or when a full sweep makes no further score improvement. -/
theorem C5_coordinator_loop_bounded (validate : Schedule → ComplianceResult)
    (sweep : Schedule → Schedule) (max_iterations : Nat) (s : Schedule) :
    (coordinator_run validate sweep max_iterations s).2.1 ≤ max_iterations ∧
    (coordinator_run validate sweep max_iterations s).2.2 = CoordinatorPhase.finalized ∧
    ((validate s).is_compliant = true →
      resolve_validate_loop validate sweep max_iterations s = (s, 0)) ∧
    ((validate s).is_compliant = false →
      (validate (sweep s)).score ≤ (validate s).score →
      ∀ k : Nat, resolve_validate_loop validate sweep (k + 1) s = (sweep s, 1)) := by
  refine ⟨resolve_validate_loop_cycle_bound validate sweep max_iterations s, rfl, ?_, ?_⟩
  · intro hc
    cases max_iterations with
    | zero => rfl
    | succ k => simp [resolve_validate_loop, hc]
  · intro hc himp k
    simp [resolve_validate_loop, hc, himp]

/-- Witness for C5: a validator that always reports a compliant result, on the
empty schedule — the loop exits with zero cycles and the run finalizes. -/
theorem C5_coordinator_loop_bounded_witness :
    (coordinator_run (fun _ => ⟨[], [], [], 100⟩) id 5 ⟨[], 0, 0⟩).2.1 ≤ 5 ∧
    (coordinator_run (fun _ => ⟨[], [], [], 100⟩) id 5 ⟨[], 0, 0⟩).2.2 =
      CoordinatorPhase.finalized ∧
    (((fun _ : Schedule => (⟨[], [], [], 100⟩ : ComplianceResult)) ⟨[], 0, 0⟩).is_compliant = true →
      resolve_validate_loop (fun _ => ⟨[], [], [], 100⟩) id 5 ⟨[], 0, 0⟩ = (⟨[], 0, 0⟩, 0)) ∧
    (((fun _ : Schedule => (⟨[], [], [], 100⟩ : ComplianceResult)) ⟨[], 0, 0⟩).is_compliant = false →
      ((fun _ : Schedule => (⟨[], [], [], 100⟩ : ComplianceResult)) (id ⟨[], 0, 0⟩)).score ≤
        ((fun _ : Schedule => (⟨[], [], [], 100⟩ : ComplianceResult)) ⟨[], 0, 0⟩).score →
      ∀ k : Nat, resolve_validate_loop (fun _ => ⟨[], [], [], 100⟩) id (k + 1) ⟨[], 0, 0⟩ =
        (id ⟨[], 0, 0⟩, 1)) :=
  C5_coordinator_loop_bounded (fun _ => ⟨[], [], [], 100⟩) id 5 ⟨[], 0, 0⟩

/-! ## The explainer (`agents/explainer.py`) -/

/-- The observable behaviour of one LLM call attempt, covering every path of
`OpenRouterClient.chat_completion` (`agents/explainer.py` lines 63–105): the
module rate limiter denying the call, an HTTP response with some status code
and body text, or a raised exception (network failure, malformed JSON). -/
inductive LLMOutcome where
  | rate_limited
  | response (status : Nat) (text : String)
  | raised
deriving Repr, DecidableEq

/-- From `agents/explainer.py` lines 63–105, `OpenRouterClient.chat_completion`:
return `None` when the rate limiter denies the call; on a response return the
generated text when `status_code == 200`, `None` on `429`, `None` on any other
status; return `None` when an exception is raised. -/
def OpenRouterClient.chat_completion (o : LLMOutcome) : Option String :=
  match o with
  | .rate_limited => none
  | .response status text =>
    if status == 200 then some text
    else if status == 429 then none
    else none
  | .raised => none

/-- From `agents/explainer.py` line 86: `_call_count` is incremented once the
rate limiter admitted the call, on every subsequent path. -/
def LLMOutcome.api_call_made : LLMOutcome → Nat
  | .rate_limited => 0
  | .response _ _ => 1
  | .raised => 1

/-- The `ExplainerAgent`'s configuration (`agents/explainer.py` lines
126–156): `use_llm`, and whether `_init_llm_client` found an API key and set
`llm_client` (`has_client` is `llm_client is not None`; a missing API key
leaves it `False`). -/
structure ExplainerAgent where
  use_llm : Bool
  has_client : Bool
deriving Repr, DecidableEq

/-- The behaviour of the external text-generation service for one run of
`execute`: one primary/fallback outcome pair per call site (the summary call
and the manager-advice call). -/
structure LLMEnv where
  summary_primary : LLMOutcome
  summary_fallback : LLMOutcome
  advice_primary : LLMOutcome
  advice_fallback : LLMOutcome
deriving Repr, DecidableEq

/-- From `agents/explainer.py` lines 158–193, `ExplainerAgent._call_llm`: with
no client return `None`; otherwise try the primary model and, when it yields
`None`, the fallback model (whose `None` is returned as-is). -/
def ExplainerAgent.call_llm (ag : ExplainerAgent) (primary fallback : LLMOutcome) :
    Option String :=
  if ag.has_client then
    match OpenRouterClient.chat_completion primary with
    | some r => some r
    | none => OpenRouterClient.chat_completion fallback
  else none

/-- API calls actually made by one `_call_llm` invocation (for the call-count
state of C2). -/
def ExplainerAgent.call_llm_count (ag : ExplainerAgent) (primary fallback : LLMOutcome) : Nat :=
  if ag.has_client then
    primary.api_call_made +
      (match OpenRouterClient.chat_completion primary with
       | some _ => 0
       | none => fallback.api_call_made)
  else 0

/-- Python's `f"{x:.1f}"` and default float rendering, abstracted to the
rational's own rendering (the claims do not depend on decimal formatting). -/
def fmt1 (q : ℚ) : String := toString q

/-- A run of `n` copies of a character, Python's `c * n`. -/
def charRun (c : Char) (n : Nat) : String := String.mk (List.replicate n c)

/-- From `agents/explainer.py` lines 255–282: the template-based (fallback)
executive summary built when the LLM yields nothing. -/
def summary_template (schedule : Schedule) (compliance_result : ComplianceResult)
    (store : Store) : String :=
  let summary_data := schedule.summary
  let status := if compliance_result.is_compliant then "✅ COMPLIANT" else "⚠️ NEEDS REVIEW"
  let pending_note :=
    if compliance_result.pending_approvals.isEmpty then ""
    else "\n• 📋 Pending Manager Approval: " ++ toString compliance_result.pending_approvals.length
  "\n📋 SCHEDULE SUMMARY - " ++ store.name ++ "\n" ++ charRun '=' 50 ++
  "\n\nPeriod: " ++ summary_data.date_range ++
  "\nStatus: " ++ status ++ " (Score: " ++ fmt1 compliance_result.score ++ "/100)" ++
  "\n\n📊 Key Metrics:" ++
  "\n• Total Assignments: " ++ toString summary_data.total_assignments ++
  "\n• Employees Scheduled: " ++ toString summary_data.unique_employees ++
  "\n• Total Hours: " ++ fmt1 summary_data.total_hours ++
  "\n• Days Covered: " ++ toString summary_data.days ++
  "\n\n📈 Compliance:" ++
  "\n• Hard Violations: " ++ toString compliance_result.violations.length ++
  "\n• Soft Warnings: " ++ toString compliance_result.warnings.length ++ pending_note ++
  "\n\nThis schedule was automatically generated by the Multi-Agent \n" ++
  "Scheduling System, optimizing for Fair Work Act compliance,\n" ++
  "peak period coverage, and employee preferences.\n"

/-- From `agents/explainer.py` lines 244–282, `ExplainerAgent._generate_summary`:
if `use_llm` and a client exists, ask the LLM (primary then fallback model)
and return its text when truthy; otherwise fall back to the template.  The
truthiness check `if llm_summary:` of line 252 means an empty-string LLM
result also falls through to the template. -/
def ExplainerAgent.generate_summary (ag : ExplainerAgent) (env : LLMEnv)
    (schedule : Schedule) (compliance_result : ComplianceResult) (store : Store) : String :=
  let llm_summary :=
    if ag.use_llm && ag.has_client then
      ag.call_llm env.summary_primary env.summary_fallback
    else none
  match llm_summary with
  | some t => if t == "" then summary_template schedule compliance_result store else t
  | none => summary_template schedule compliance_result store

/-- Modelled from the spec: dates are day indices, anchored so that day 0 is a
Monday; Python's `target_date.strftime("%A")`. -/
def day_name (d : Nat) : String :=
  match d % 7 with
  | 0 => "Monday"
  | 1 => "Tuesday"
  | 2 => "Wednesday"
  | 3 => "Thursday"
  | 4 => "Friday"
  | 5 => "Saturday"
  | _ => "Sunday"

/-- From `agents/explainer.py` lines 304–332,
`ExplainerAgent._generate_coverage_analysis`: per-weekday average assignment
counts (grouping in first-appearance order, as Python's insertion-ordered
`defaultdict`), a bar of `int(avg / 2)` blocks, then the per-station shift
counts. -/
def ExplainerAgent.generate_coverage_analysis (schedule : Schedule) (store : Store) : String :=
  let dates := schedule.get_dates_in_range
  let names := (dates.map day_name).eraseDups
  let day_lines := names.map (fun nm =>
    let counts := (dates.filter (fun d => day_name d == nm)).map
      (fun d => (schedule.get_assignments_by_date d).length)
    let avg : ℚ :=
      if counts.isEmpty then 0
      else (counts.map (fun c => (c : ℚ))).sum / (counts.length : ℚ)
    let bar := charRun '█' (⌊avg / 2⌋).toNat
    "  " ++ String.mk (nm.toList.take 3) ++ ": " ++ bar ++ " (" ++ fmt1 avg ++ " staff)")
  let station_lines := store.get_active_stations.map (fun st =>
    "  " ++ st ++ ": " ++ toString (schedule.get_assignments_by_station st).length ++ " shifts")
  "\n".intercalate
    (["\n📊 COVERAGE ANALYSIS", charRun '=' 50] ++
     ["\nAverage Daily Coverage by Day of Week:"] ++ day_lines ++
     ["\nCoverage by Station:"] ++ station_lines)

/-- From `agents/explainer.py` line 360: the chained comparison
`emp['min'] <= emp['hours'] / 2 <= emp['max']` deciding the check-or-bang
status mark — the fortnight hours divided by 2 compared against the weekly
target range. -/
def in_weekly_range (mn mx hours : ℚ) : Bool :=
  decide (mn ≤ hours / 2) && decide (hours / 2 ≤ mx)

/-- One entry of the per-type employee grouping of
`_generate_employee_summary` (the Python dict of name/shifts/hours/min/max). -/
structure EmployeeRow where
  name : String
  shifts : Nat
  hours : ℚ
  min_target : ℚ
  max_target : ℚ
deriving Repr, DecidableEq

/-- From `agents/explainer.py` lines 334–366,
`ExplainerAgent._generate_employee_summary`: group employees by employment
type (insertion order), sort each group by hours descending (stable), keep the
top 5, and render each with its in-range status mark and fortnightly hours. -/
def ExplainerAgent.generate_employee_summary (schedule : Schedule)
    (employees : List Employee) : String :=
  let rows := employees.map (fun e =>
    let assignments := schedule.get_assignments_by_employee e.id
    let hours := (assignments.map (fun a => a.shift.hours)).sum
    (e.employee_type.value,
     EmployeeRow.mk e.name assignments.length hours
       e.weekly_hours_target.1 e.weekly_hours_target.2))
  let types := (rows.map (fun r => r.1)).eraseDups
  let blocks := types.map (fun ty =>
    let emp_list := (rows.filter (fun r => r.1 == ty)).map (fun r => r.2)
    let sorted := emp_list.mergeSort (fun a b => decide (b.hours ≤ a.hours))
    ("\n" ++ ty ++ ":") ::
      (sorted.take 5).map (fun emp =>
        let status := if in_weekly_range emp.min_target emp.max_target emp.hours then "✓" else "!"
        "  " ++ status ++ " " ++ emp.name ++ ": " ++ toString emp.shifts ++ " shifts, " ++
          fmt1 emp.hours ++ "h/2wk"))
  "\n".intercalate (["\n👥 EMPLOYEE ASSIGNMENTS", charRun '=' 50] ++ blocks.flatten)

/-- From `agents/explainer.py` lines 368–391,
`ExplainerAgent._generate_compliance_notes`. -/
def ExplainerAgent.generate_compliance_notes (compliance_result : ComplianceResult) : String :=
  let head := ["\n⚖️ COMPLIANCE NOTES (Fair Work Act)", charRun '=' 50]
  let body :=
    if compliance_result.is_compliant then
      [ "\n✅ All hard constraints satisfied:",
        "  • Maximum weekly hours respected",
        "  • Minimum 10-hour rest between shifts",
        "  • Maximum 6 consecutive working days",
        "  • Skills matched to station requirements" ]
    else
      ("\n⚠️ " ++ toString compliance_result.violations.length ++
        " violations require attention:") ::
        (compliance_result.violations.take 5).map (fun v => "  ❌ " ++ v.description)
  let warn :=
    if compliance_result.warnings.isEmpty then []
    else
      ("\n📝 " ++ toString compliance_result.warnings.length ++
        " optimization opportunities:") ::
        (compliance_result.warnings.take 3).map (fun w => "  • " ++ w.description)
  "\n".intercalate (head ++ body ++ warn)

/-- From `agents/explainer.py` lines 405–410: an employee is flagged as
understaffed when the fortnightly hours fall below
`0.8 * (weekly_hours_target[0] * 2)`. -/
def recommends_more_shifts (e : Employee) (hours : ℚ) : Bool :=
  decide (hours < (e.weekly_hours_target.1 * 2) * (0.8 : ℚ))

/-- From `agents/explainer.py` lines 393–427,
`ExplainerAgent._generate_recommendations`: a shift-adding recommendation per
understaffed employee, the first suggestion of each of the first two warnings,
a default when nothing was collected, and the first five rendered numbered. -/
def ExplainerAgent.generate_recommendations (schedule : Schedule)
    (compliance_result : ComplianceResult) (employees : List Employee) : String :=
  let emp_recs := employees.filterMap (fun e =>
    let hours := scheduled_hours schedule e.id
    let min_hours := e.weekly_hours_target.1 * 2
    if recommends_more_shifts e hours then
      some ("Consider adding shifts for " ++ e.name ++ " (" ++ fmt1 hours ++ "/" ++
        toString min_hours ++ "h target)")
    else none)
  let warn_recs := (compliance_result.warnings.take 2).filterMap (fun v => v.suggestions.head?)
  let recommendations := emp_recs ++ warn_recs
  let recommendations :=
    if recommendations.isEmpty then
      ["Schedule is well-optimized. No immediate actions needed."]
    else recommendations
  let numbered := ((recommendations.take 5).enumFrom 1).map
    (fun p => "  " ++ toString p.1 ++ ". " ++ p.2)
  "\n".intercalate (["\n💡 RECOMMENDATIONS", charRun '=' 50] ++ numbered)

/-- From `agents/explainer.py` lines 429–451, `ExplainerAgent._explain_issues`. -/
def ExplainerAgent.explain_issues (compliance_result : ComplianceResult) : String :=
  let head := ["\n🔍 DETAILED ISSUE ANALYSIS", charRun '=' 50]
  let viols :=
    if compliance_result.violations.isEmpty then []
    else
      "\n❌ CRITICAL ISSUES (Must Fix):" ::
        (compliance_result.violations.flatMap (fun v =>
          ["\n  Issue: " ++ v.description, "  Severity: " ++ toString v.severity ++ "/10"] ++
          (match v.suggestions.head? with
           | some sg => ["  Suggested Fix: " ++ sg]
           | none => [])))
  let warns :=
    if compliance_result.warnings.isEmpty then []
    else
      "\n⚠️ WARNINGS (Should Address):" ::
        ((compliance_result.warnings.take 5).flatMap (fun w =>
          ["\n  Warning: " ++ w.description] ++
          (match w.suggestions.head? with
           | some sg => ["  Suggestion: " ++ sg]
           | none => [])))
  "\n".intercalate (head ++ viols ++ warns)

/-- Python's left-aligned pad `f"{s:<w}"`. -/
def padRight (s : String) (w : Nat) : String :=
  s ++ charRun ' ' (w - s.length)

/-- Python's `str(approval.affected_date or 'N/A')`. -/
def affected_date_str : Option Nat → String
  | some d => toString d
  | none => "N/A"

/-- From `agents/explainer.py` lines 477–481: the description word-wrap of the
approval box — emit padded 45-character slices while more than 45 characters
remain, then the padded remainder. -/
def desc_wrap (cs : List Char) : List String :=
  if h : 45 < cs.length then
    ("│   " ++ padRight (String.mk (cs.take 45)) 45 ++ " │") :: desc_wrap (cs.drop 45)
  else
    ["│   " ++ padRight (String.mk cs) 45 ++ " │"]
termination_by cs.length
decreasing_by simp only [List.length_drop]; omega

/-- From `agents/explainer.py` lines 484: the escalation reason is
`approval.details.get("escalation_reason", "Unable to resolve automatically")`. -/
def escalation_reason (a : ApprovalRequest) : String :=
  (a.details.lookup "escalation_reason").getD "Unable to resolve automatically"

/-- From `agents/explainer.py` lines 487–492: wrap one sentence of the
escalation reason into bullet lines — unterminated 43-character slices while
more than 43 characters remain, then the padded remainder. -/
def reason_wrap (cs : List Char) : List String :=
  if h : 43 < cs.length then
    ("│   • " ++ String.mk (cs.take 43)) :: reason_wrap (cs.drop 43)
  else
    ["│   • " ++ padRight (String.mk cs) 43 ++ " │"]
termination_by cs.length
decreasing_by simp only [List.length_drop]; omega

/-- From `agents/explainer.py` lines 487–492: the escalation reason split on
`". "`, empty pieces skipped, each remaining sentence wrapped into bullets. -/
def reason_lines (reason : String) : List String :=
  (reason.splitOn ". ").flatMap (fun line =>
    if line == "" then [] else reason_wrap line.toList)

/-- From `agents/explainer.py` lines 496–501: the fixed five-entry menu of
manager decision options appended for every pending approval. -/
def manager_option_lines : List String :=
  [ "│   □ A) Accept understaffed shift             │",
    "│   □ B) Authorize overtime for qualified staff│",
    "│   □ C) Contact casual pool for coverage      │",
    "│   □ D) Reduce station services temporarily   │",
    "│   □ E) Request shift swap from other store   │" ]

/-- From `agents/explainer.py` lines 469–503: the boxed block rendered for the
`i`-th pending approval — header with the upper-cased constraint type, the
affected date, the wrapped description, the wrapped escalation reason, and the
fixed manager-options menu. -/
def approval_block (i : Nat) (a : ApprovalRequest) : List String :=
  [ "┌" ++ charRun '─' 48 ++ "┐",
    "│ ITEM " ++ toString i ++ ": " ++ padRight a.constraint_type.toUpper 38 ++ " │",
    "├" ++ charRun '─' 48 ++ "┤",
    "│ Date: " ++ padRight (affected_date_str a.affected_date) 41 ++ " │",
    "│ Description: " ] ++
  desc_wrap a.description.toList ++
  [ "├" ++ charRun '─' 48 ++ "┤",
    "│ Why approval needed:" ] ++
  reason_lines (escalation_reason a) ++
  [ "├" ++ charRun '─' 48 ++ "┤",
    "│ MANAGER OPTIONS:" ] ++
  manager_option_lines ++
  [ "└" ++ charRun '─' 48 ++ "┘",
    "" ]

/-- From `agents/explainer.py` lines 453–512,
`ExplainerAgent._generate_manager_approvals` as its list of lines: the header,
one boxed block per pending approval (numbered from 1), and — when the LLM is
available and produced truthy advice (`if advice:` at line 508, so empty-string
advice is skipped like `None`) — the system-recommendation tail. -/
def generate_manager_approvals_lines (ag : ExplainerAgent) (env : LLMEnv)
    (compliance_result : ComplianceResult) : List String :=
  let header :=
    [ "\n📋 MANAGER APPROVAL REQUIRED",
      charRun '=' 50,
      "\nThe following items could not be automatically resolved",
      "and require manager decision:\n" ]
  let blocks := (compliance_result.pending_approvals.enumFrom 1).flatMap
    (fun p => approval_block p.1 p.2)
  let advice :=
    if ag.use_llm && ag.has_client &&
        decide (0 < compliance_result.pending_approvals.length) then
      match ag.call_llm env.advice_primary env.advice_fallback with
      | some adv => if adv == "" then [] else ["\n💡 SYSTEM RECOMMENDATION:", adv]
      | none => []
    else []
  header ++ blocks ++ advice

/-- From `agents/explainer.py` line 512: the joined rendering of
`_generate_manager_approvals`. -/
def ExplainerAgent.generate_manager_approvals (ag : ExplainerAgent) (env : LLMEnv)
    (compliance_result : ComplianceResult) : String :=
  "\n".intercalate (generate_manager_approvals_lines ag env compliance_result)

/-- From `agents/explainer.py` lines 195–242, `ExplainerAgent.execute`: build
the explanations dictionary with its five unconditional keys, append `issues`
when violations or warnings exist and `manager_approvals` when approvals are
pending, and return it.  Every service behaviour is a value of `LLMEnv`, so
the function is total: no behaviour of the external service makes it raise. -/
def ExplainerAgent.execute (ag : ExplainerAgent) (env : LLMEnv) (schedule : Schedule)
    (compliance_result : ComplianceResult) (employees : List Employee) (store : Store) :
    List (String × String) :=
  let explanations :=
    [ ("summary", ag.generate_summary env schedule compliance_result store),
      ("coverage_analysis", ExplainerAgent.generate_coverage_analysis schedule store),
      ("employee_assignments", ExplainerAgent.generate_employee_summary schedule employees),
      ("compliance_notes", ExplainerAgent.generate_compliance_notes compliance_result),
      ("recommendations",
        ExplainerAgent.generate_recommendations schedule compliance_result employees) ]
  let explanations :=
    if !compliance_result.violations.isEmpty || !compliance_result.warnings.isEmpty then
      explanations ++ [("issues", ExplainerAgent.explain_issues compliance_result)]
    else explanations
  let explanations :=
    if !compliance_result.pending_approvals.isEmpty then
      explanations ++
        [("manager_approvals", ag.generate_manager_approvals env compliance_result)]
    else explanations
  explanations

/-- The API calls `execute` makes: the summary call when the LLM is in use,
and the manager-advice call when additionally approvals are pending. -/
def ExplainerAgent.execute_calls (ag : ExplainerAgent) (env : LLMEnv)
    (compliance_result : ComplianceResult) : Nat :=
  (if ag.use_llm && ag.has_client then
    ag.call_llm_count env.summary_primary env.summary_fallback
   else 0) +
  (if !compliance_result.pending_approvals.isEmpty && (ag.use_llm && ag.has_client) then
    ag.call_llm_count env.advice_primary env.advice_fallback
   else 0)

/-- The state `execute` runs against: the schedule and compliance result it is
handed, and the client's mutable `_call_count` — the only field any code on
the `execute` path assigns to. -/
structure ExplainerRunState where
  schedule : Schedule
  compliance : ComplianceResult
  call_count : Nat
deriving Repr, DecidableEq

/-- `ExplainerAgent.execute` as a state transformer: the call counter advances
by the calls made; the schedule and compliance result are only read. -/
def ExplainerAgent.execute_st (ag : ExplainerAgent) (env : LLMEnv)
    (st : ExplainerRunState) (employees : List Employee) (store : Store) :
    ExplainerRunState × List (String × String) :=
  (⟨st.schedule, st.compliance, st.call_count + ag.execute_calls env st.compliance⟩,
   ag.execute env st.schedule st.compliance employees store)

/-! ## Claim C1 -/

/-- C1: for every input and every behaviour of the external text-generation
service — rate-limiter denial, any HTTP status, a raised exception, or a
missing API key (`has_client = false`) — `ExplainerAgent.execute` is a total
function (it never raises) returning a dictionary that contains the keys
`summary`, `coverage_analysis`, `employee_assignments`, `compliance_notes`
and `recommendations`; the `summary` value falls back to the template text
whenever the LLM call yields `None` — and, per the truthiness check at
`explainer.py` line 252, also when it yields the empty string, which the
filtered equation below records; and
`OpenRouterClient.chat_completion` returns the generated text when the
response status is 200 and `None` in every other case. -/
theorem C1_execute_total_keys_and_fallback (ag : ExplainerAgent) (env : LLMEnv)
    (schedule : Schedule) (compliance_result : ComplianceResult)
    (employees : List Employee) (store : Store) :
    "summary" ∈
      (ag.execute env schedule compliance_result employees store).map Prod.fst ∧
    "coverage_analysis" ∈
      (ag.execute env schedule compliance_result employees store).map Prod.fst ∧
    "employee_assignments" ∈
      (ag.execute env schedule compliance_result employees store).map Prod.fst ∧
    "compliance_notes" ∈
      (ag.execute env schedule compliance_result employees store).map Prod.fst ∧
    "recommendations" ∈
      (ag.execute env schedule compliance_result employees store).map Prod.fst ∧
    (ag.execute env schedule compliance_result employees store).lookup "summary" =
      some (ag.generate_summary env schedule compliance_result store) ∧
    ag.generate_summary env schedule compliance_result store =
      (((if ag.use_llm && ag.has_client then
          ag.call_llm env.summary_primary env.summary_fallback
        else none).filter (fun t => !(t == ""))).getD
        (summary_template schedule compliance_result store)) ∧
    (∀ t : String, OpenRouterClient.chat_completion (.response 200 t) = some t) ∧
    (∀ (status : Nat) (t : String),
      OpenRouterClient.chat_completion (.response status t) =
        if status == 200 then some t else none) ∧
    OpenRouterClient.chat_completion .rate_limited = none ∧
    OpenRouterClient.chat_completion .raised = none := by
  refine ⟨?_, ?_, ?_, ?_, ?_, ?_, ?_, fun t => rfl, ?_, rfl, rfl⟩
  · cases h1 : (!compliance_result.violations.isEmpty || !compliance_result.warnings.isEmpty) <;>
      cases h2 : (!compliance_result.pending_approvals.isEmpty) <;>
      simp [ExplainerAgent.execute, h1, h2]
  · cases h1 : (!compliance_result.violations.isEmpty || !compliance_result.warnings.isEmpty) <;>
      cases h2 : (!compliance_result.pending_approvals.isEmpty) <;>
      simp [ExplainerAgent.execute, h1, h2]
  · cases h1 : (!compliance_result.violations.isEmpty || !compliance_result.warnings.isEmpty) <;>
      cases h2 : (!compliance_result.pending_approvals.isEmpty) <;>
      simp [ExplainerAgent.execute, h1, h2]
  · cases h1 : (!compliance_result.violations.isEmpty || !compliance_result.warnings.isEmpty) <;>
      cases h2 : (!compliance_result.pending_approvals.isEmpty) <;>
      simp [ExplainerAgent.execute, h1, h2]
  · cases h1 : (!compliance_result.violations.isEmpty || !compliance_result.warnings.isEmpty) <;>
      cases h2 : (!compliance_result.pending_approvals.isEmpty) <;>
      simp [ExplainerAgent.execute, h1, h2]
  · cases h1 : (!compliance_result.violations.isEmpty || !compliance_result.warnings.isEmpty) <;>
      cases h2 : (!compliance_result.pending_approvals.isEmpty) <;>
      simp [ExplainerAgent.execute, h1, h2, List.lookup]
  · unfold ExplainerAgent.generate_summary
    cases h : (if ag.use_llm && ag.has_client then
        ag.call_llm env.summary_primary env.summary_fallback else none) with
    | none => simp [h, Option.filter]
    | some t => cases ht : (t == "") <;> simp [h, ht, Option.filter]
  · intro status t
    by_cases h2 : status = 200
    · subst h2; rfl
    · have hb : (status == 200) = false := by simp [h2]
      by_cases h4 : status = 429
      · subst h4; rfl
      · have hb4 : (status == 429) = false := by simp [h4]
        simp [OpenRouterClient.chat_completion, hb, hb4]

/-! ## Claim C2 -/

/-- C2: `ExplainerAgent.execute` is strictly a post-processing step: run as a
state transformer (the only mutable datum on its path is the client's
`_call_count`), the schedule and the compliance result — hence their
assignments, violations, warnings, pending approvals and score — are exactly
the ones passed in, and the output is a pure function of the read state. -/
theorem C2_execute_preserves_schedule_and_compliance (ag : ExplainerAgent) (env : LLMEnv)
    (st : ExplainerRunState) (employees : List Employee) (store : Store) :
    (ag.execute_st env st employees store).1.schedule = st.schedule ∧
    (ag.execute_st env st employees store).1.compliance = st.compliance ∧
    (ag.execute_st env st employees store).1.schedule.assignments =
      st.schedule.assignments ∧
    (ag.execute_st env st employees store).1.compliance.violations =
      st.compliance.violations ∧
    (ag.execute_st env st employees store).1.compliance.warnings =
      st.compliance.warnings ∧
    (ag.execute_st env st employees store).1.compliance.pending_approvals =
      st.compliance.pending_approvals ∧
    (ag.execute_st env st employees store).1.compliance.score = st.compliance.score ∧
    (ag.execute_st env st employees store).2 =
      ag.execute env st.schedule st.compliance employees store :=
  ⟨rfl, rfl, rfl, rfl, rfl, rfl, rfl, rfl⟩

/-! ## Claim C6 -/

/-- Modelled from the spec: the violation the absent `ComplianceValidator`'s
fortnight-hours rule emits for an out-of-range employee; its description
carries the employee's name (the flag "referencing e"). -/
def fortnight_violation (e : Employee) : Violation :=
  ⟨e.name ++ " fortnightly hours outside weekly-hours target range", 5,
   ["Adjust shifts for " ++ e.name]⟩

/-- Modelled from the spec: the fortnight-hours rule check — "per employee,
fortnightly hours fall within their employment-type bounds or are explicitly
flagged"; one violation per employee whose total scheduled hours fall outside
the `[min, max]` target range. -/
def fortnight_check (s : Schedule) (emps : List Employee) : List Violation :=
  emps.filterMap (fun e =>
    if scheduled_hours s e.id < e.weekly_hours_target.1 ∨
        e.weekly_hours_target.2 < scheduled_hours s e.id then
      some (fortnight_violation e)
    else none)

/-- C6: every employee of a finalized compliant schedule either has
fortnightly hours inside the `[min, max]` target range or is referenced by a
flag of the (spec-modelled) fortnight-hours check; and, as the claim records,
the shipped explainer instead treats the range as weekly — its status mark
tests `min ≤ hours / 2 ≤ max` and it recommends more shifts exactly when the
fortnightly hours fall below `0.8 * (2 * min)`. -/
theorem C6_fortnight_hours_in_range_or_flagged (s : Schedule) (emps : List Employee)
    (e : Employee) (he : e ∈ emps) :
    ((e.weekly_hours_target.1 ≤ scheduled_hours s e.id ∧
        scheduled_hours s e.id ≤ e.weekly_hours_target.2) ∨
      ∃ v ∈ fortnight_check s emps,
        v.description = e.name ++ " fortnightly hours outside weekly-hours target range") ∧
    (∀ mn mx hrs : ℚ, in_weekly_range mn mx hrs = true ↔ (mn ≤ hrs / 2 ∧ hrs / 2 ≤ mx)) ∧
    (∀ (e' : Employee) (hrs : ℚ), recommends_more_shifts e' hrs = true ↔
      hrs < (e'.weekly_hours_target.1 * 2) * (0.8 : ℚ)) := by
  refine ⟨?_, ?_, ?_⟩
  · by_cases hin : e.weekly_hours_target.1 ≤ scheduled_hours s e.id ∧
        scheduled_hours s e.id ≤ e.weekly_hours_target.2
    · exact Or.inl hin
    · right
      have hcond : scheduled_hours s e.id < e.weekly_hours_target.1 ∨
          e.weekly_hours_target.2 < scheduled_hours s e.id := by
        rcases not_and_or.1 hin with h1 | h2
        · exact Or.inl (not_le.1 h1)
        · exact Or.inr (not_le.1 h2)
      refine ⟨fortnight_violation e, ?_, rfl⟩
      apply List.mem_filterMap.2
      exact ⟨e, he, by rw [if_pos hcond]⟩
  · intro mn mx hrs
    simp [in_weekly_range]
  · intro e' hrs
    simp [recommends_more_shifts]

/-- Concrete inputs for the C6 witness: one casual employee with no
assignments, so the fortnight-hours flag fires. -/
def c6emp : Employee := ⟨7, "Alex", .casual, ["grill"], (10, 20)⟩

/-- Witness for C6 at concrete inputs: the membership hypothesis is discharged
on a one-element roster. -/
theorem C6_fortnight_hours_in_range_or_flagged_witness :
    c6emp ∈ [c6emp] ∧
    (((c6emp.weekly_hours_target.1 ≤ scheduled_hours ⟨[], 0, 0⟩ c6emp.id ∧
        scheduled_hours ⟨[], 0, 0⟩ c6emp.id ≤ c6emp.weekly_hours_target.2) ∨
      ∃ v ∈ fortnight_check ⟨[], 0, 0⟩ [c6emp],
        v.description =
          c6emp.name ++ " fortnightly hours outside weekly-hours target range") ∧
    (∀ mn mx hrs : ℚ, in_weekly_range mn mx hrs = true ↔ (mn ≤ hrs / 2 ∧ hrs / 2 ≤ mx)) ∧
    (∀ (e' : Employee) (hrs : ℚ), recommends_more_shifts e' hrs = true ↔
      hrs < (e'.weekly_hours_target.1 * 2) * (0.8 : ℚ))) :=
  ⟨List.mem_singleton.2 rfl,
   C6_fortnight_hours_in_range_or_flagged ⟨[], 0, 0⟩ [c6emp] c6emp
     (List.mem_singleton.2 rfl)⟩

/-! ## Claim C8 -/

lemma exists_enumFrom_of_mem {α : Type} {a : α} {l : List α} (h : a ∈ l) (n : Nat) :
    ∃ i, (i, a) ∈ l.enumFrom n := by
  induction l generalizing n with
  | nil => cases h
  | cons b t ih =>
    rcases List.mem_cons.1 h with rfl | ht
    · exact ⟨n, List.mem_cons_self _ _⟩
    · rcases ih ht (n + 1) with ⟨i, hi⟩
      exact ⟨i, List.mem_cons_of_mem _ hi⟩

lemma mem_lines_of_mem_block {x : String} (ag : ExplainerAgent) (env : LLMEnv)
    (cr : ComplianceResult) {i : Nat} {a : ApprovalRequest}
    (hia : (i, a) ∈ cr.pending_approvals.enumFrom 1)
    (hx : x ∈ approval_block i a) :
    x ∈ generate_manager_approvals_lines ag env cr := by
  simp only [generate_manager_approvals_lines, List.mem_append, List.mem_flatMap]
  exact Or.inl (Or.inr ⟨(i, a), hia, hx⟩)

lemma mem_block_of_mem_options {opt : String} (i : Nat) (a : ApprovalRequest)
    (h : opt ∈ manager_option_lines) : opt ∈ approval_block i a := by
  simp only [approval_block, List.mem_append]
  tauto

lemma mem_block_of_mem_reason {x : String} (i : Nat) (a : ApprovalRequest)
    (h : x ∈ reason_lines (escalation_reason a)) : x ∈ approval_block i a := by
  simp only [approval_block, List.mem_append]
  tauto

/-- C8: for every pending approval the rendered output contains the fixed menu
of exactly five manager decision options (accept the understaffed shift,
authorize overtime, contact the casual pool, reduce station services, request
an inter-store swap) and the wrapped escalation reason; the reason is taken
from the request's `details` under `escalation_reason`, defaulting to
"Unable to resolve automatically" when the key is absent. -/
theorem C8_manager_approvals_fixed_menu (cr : ComplianceResult) (a : ApprovalRequest)
    (ha : a ∈ cr.pending_approvals) (ag : ExplainerAgent) (env : LLMEnv) :
    manager_option_lines =
      [ "│   □ A) Accept understaffed shift             │",
        "│   □ B) Authorize overtime for qualified staff│",
        "│   □ C) Contact casual pool for coverage      │",
        "│   □ D) Reduce station services temporarily   │",
        "│   □ E) Request shift swap from other store   │" ] ∧
    (∀ opt ∈ manager_option_lines,
      opt ∈ generate_manager_approvals_lines ag env cr) ∧
    (∀ l ∈ reason_lines (escalation_reason a),
      l ∈ generate_manager_approvals_lines ag env cr) ∧
    (∀ (ct : String) (ad : Option Nat) (d : String),
      escalation_reason ⟨ct, ad, d, []⟩ = "Unable to resolve automatically") ∧
    (∀ (ct : String) (ad : Option Nat) (d r : String) (rest : List (String × String)),
      escalation_reason ⟨ct, ad, d, ("escalation_reason", r) :: rest⟩ = r) := by
  obtain ⟨i, hia⟩ := exists_enumFrom_of_mem ha 1
  refine ⟨rfl, ?_, ?_, ?_, ?_⟩
  · intro opt hopt
    exact mem_lines_of_mem_block ag env cr hia (mem_block_of_mem_options i a hopt)
  · intro l hl
    exact mem_lines_of_mem_block ag env cr hia (mem_block_of_mem_reason i a hl)
  · intro ct ad d
    simp [escalation_reason, List.lookup]
  · intro ct ad d r rest
    simp [escalation_reason, List.lookup]

/-- The concrete approval request of the C8 witness (no escalation reason in
its details, so the default applies). -/
def c8a : ApprovalRequest := ⟨"understaffing", some 3, "Need coverage", []⟩

/-- The concrete compliance result of the C8 witness. -/
def c8cr : ComplianceResult := ⟨[], [], [c8a], 80⟩

/-- Witness for C8 at concrete inputs: the membership hypothesis is discharged
on a one-approval compliance result. -/
theorem C8_manager_approvals_fixed_menu_witness :
    c8a ∈ c8cr.pending_approvals ∧
    (manager_option_lines =
      [ "│   □ A) Accept understaffed shift             │",
        "│   □ B) Authorize overtime for qualified staff│",
        "│   □ C) Contact casual pool for coverage      │",
        "│   □ D) Reduce station services temporarily   │",
        "│   □ E) Request shift swap from other store   │" ] ∧
    (∀ opt ∈ manager_option_lines,
      opt ∈ generate_manager_approvals_lines ⟨false, false⟩
        ⟨.rate_limited, .rate_limited, .rate_limited, .rate_limited⟩ c8cr) ∧
    (∀ l ∈ reason_lines (escalation_reason c8a),
      l ∈ generate_manager_approvals_lines ⟨false, false⟩
        ⟨.rate_limited, .rate_limited, .rate_limited, .rate_limited⟩ c8cr) ∧
    (∀ (ct : String) (ad : Option Nat) (d : String),
      escalation_reason ⟨ct, ad, d, []⟩ = "Unable to resolve automatically") ∧
    (∀ (ct : String) (ad : Option Nat) (d r : String) (rest : List (String × String)),
      escalation_reason ⟨ct, ad, d, ("escalation_reason", r) :: rest⟩ = r)) :=
  ⟨List.mem_singleton.2 rfl,
   C8_manager_approvals_fixed_menu c8cr c8a (List.mem_singleton.2 rfl) ⟨false, false⟩
     ⟨.rate_limited, .rate_limited, .rate_limited, .rate_limited⟩⟩
